import Mathlib

/-!
Verification development for the clementine-cli scaffolding tool.

The embedding follows the source:
* `src/primitives/queues/config.ts` — the configuration patcher
  (`patchWranglerConfigForQueues`, `patchTomlConfigForQueues`,
  `patchJsonConfigForQueues`).
* `src/primitives/registry.ts` — the primitive registry.
* `src/commands/init.ts` — the CLI command dispatcher.
* `src/lib/deploy.ts`, `src/lib/flows/generic-new.ts`,
  `src/lib/flows/generic-existing.ts`, `src/lib/flows/existing.ts` —
  flow orchestrators.
* `src/unnamed/part_002` — the `QueuesPrimitive` lifecycle implementation.

Modelling conventions:
* The JSON/JSONC configuration document is modelled by its parsed tree
  (`WranglerDoc`); the `jsonc-parser` library used by the source
  (`parse` / `modify` / `applyEdits`) is an external collaborator that reads
  and rewrites the five touched paths of the tree, so the patcher is embedded
  as a tree transformer.  When the patcher short-circuits it returns before
  producing any edit and before any write, which is what the byte-level
  statements rely on.
* The structured-text (TOML) configuration document is modelled as its list
  of lines (`List (List Char)`).  Every substring probe made by the source
  (`content.includes(...)`) uses a needle that contains no newline, and every
  block the source appends both starts and ends with a newline, so splitting
  on `'\n'` is a bijective change of representation: a needle occurs in the
  raw text iff it occurs in some line, and appending a block is list
  concatenation of its lines.
* Fallible filesystem / parser calls are passed in as explicit `Except`
  outcomes; the `try/catch` blocks of the source become `match`es on them.
-/

namespace Clementine

/-- `QueueConfig` from `src/primitives/queues/config.ts` (lines 5-11):
`queueName`, `bindingName` required, the three numeric fields optional. -/
structure QueueConfig where
  queueName : String
  bindingName : String
  maxBatchSize : Option Nat := none
  maxBatchTimeout : Option Nat := none
  maxRetries : Option Nat := none
deriving DecidableEq

/-! ## JSON / JSONC path: the parsed document tree -/

/-- One entry of the `rules` array. A missing `globs` member behaves, through
`r.globs?.includes(...)`, exactly like an empty list, so it is modelled as `[]`. -/
structure Rule where
  type : String
  globs : List String
  fallthrough : Bool
deriving DecidableEq

/-- One entry of `queues.producers`. -/
structure Producer where
  queue : String
  binding : String
deriving DecidableEq

/-- One entry of `queues.consumers`. -/
structure Consumer where
  queue : String
  max_batch_size : Nat
  max_batch_timeout : Nat
  max_retries : Nat
deriving DecidableEq

/-- One entry of `durable_objects.bindings`. -/
structure DOBinding where
  name : String
  class_name : String
deriving DecidableEq

/-- One entry of `migrations`. -/
structure Migration where
  tag : String
  new_classes : List String
deriving DecidableEq

/-- The parsed wrangler configuration document: the five sequences the patcher
touches plus the untouched remainder of the document (`extra`), which
`jsonc.modify` edits never reach. Absent arrays parse to `[]`, matching the
`parsedConfig.x?.y || []` reads in the source. -/
structure WranglerDoc where
  rules : List Rule
  producers : List Producer
  consumers : List Consumer
  doBindings : List DOBinding
  migrations : List Migration
  extra : List (String × String)
deriving DecidableEq

/-- The short-circuit guard of `patchJsonConfigForQueues` (line 133):
`parsedConfig.queues?.producers?.some((p) => p.queue === queueName)`. -/
def jsonQueueExists (doc : WranglerDoc) (cfg : QueueConfig) : Bool :=
  doc.producers.any (fun p => p.queue = cfg.queueName)

/-- The `hasHtmlRule` check of `patchJsonConfigForQueues` (lines 142-144):
`r.type === 'Text' && r.globs?.includes('**/*.html')`. -/
def isHtmlTextRule (r : Rule) : Bool :=
  r.type = "Text" && r.globs.contains "**/*.html"

/-- The rule appended by step 1 of `patchJsonConfigForQueues` (lines 147-151). -/
def htmlRule : Rule :=
  { type := "Text", globs := ["**/*.html"], fallthrough := true }

/-- The binding appended by step 4 of `patchJsonConfigForQueues`. -/
def eventStoreBinding : DOBinding :=
  { name := "EVENT_STORE", class_name := "EventStore" }

/-- The migration appended by step 5 of `patchJsonConfigForQueues`. -/
def eventStoreMigration : Migration :=
  { tag := "v1", new_classes := ["EventStore"] }

/-- `hasEventStore` check of step 4 (line 188). -/
def hasEventStore (doc : WranglerDoc) : Bool :=
  doc.doBindings.any (fun b => b.name = "EVENT_STORE")

/-- `hasMigration` check of step 5 (lines 206-208):
`m.new_classes?.includes('EventStore')`. -/
def hasEventStoreMigration (doc : WranglerDoc) : Bool :=
  doc.migrations.any (fun m => m.new_classes.contains "EventStore")

/-- `patchJsonConfigForQueues` (config.ts lines 116-233) as a tree
transformer.  When the guard at line 133 fires the function returns `true`
before computing any edit and before writing, so the document is returned
unchanged; otherwise the five steps append to the arrays read from the
original parse (all reads use `parsedConfig`, the parse of the input).
The numeric defaults `4 / 3 / 3` are the destructuring defaults of
lines 122-128. -/
def patchJsonConfigForQueues (doc : WranglerDoc) (cfg : QueueConfig) : WranglerDoc :=
  if jsonQueueExists doc cfg then doc
  else
    let rules' := if doc.rules.any isHtmlTextRule then doc.rules else doc.rules ++ [htmlRule]
    let producers' := doc.producers ++ [{ queue := cfg.queueName, binding := cfg.bindingName }]
    let consumers' := doc.consumers ++
      [{ queue := cfg.queueName,
         max_batch_size := cfg.maxBatchSize.getD 4,
         max_batch_timeout := cfg.maxBatchTimeout.getD 3,
         max_retries := cfg.maxRetries.getD 3 }]
    let doBindings' := if hasEventStore doc then doc.doBindings
      else doc.doBindings ++ [eventStoreBinding]
    let migrations' := if hasEventStoreMigration doc then doc.migrations
      else doc.migrations ++ [eventStoreMigration]
    { rules := rules', producers := producers', consumers := consumers',
      doBindings := doBindings', migrations := migrations', extra := doc.extra }

/-! ## Structured-text (TOML) path: the document as a list of lines

The source patches the raw text with `content.includes(needle)` probes and
raw string appends.  All four needles are newline-free and every appended
block starts and ends with `'\n'`, so the raw text and its list of
`'\n'`-separated lines are interchangeable representations; the patcher is
embedded on the line list. -/

/-- A line of the structured-text document. -/
abbrev Line := List Char

/-- Boolean prefix test on character lists. -/
def leadEq : List Char → List Char → Bool
  | [], _ => true
  | _ :: _, [] => false
  | a :: as, b :: bs => if a = b then leadEq as bs else false

/-- `needle` occurs as a contiguous substring of `hay`
(the semantics of JavaScript `hay.includes(needle)`). -/
def containsSub (needle : List Char) : List Char → Bool
  | [] => needle.isEmpty
  | c :: rest => leadEq needle (c :: rest) || containsSub needle rest

/-- A newline-free needle occurs in the raw document text iff it occurs in
one of its lines; this is `content.includes(needle)` on the line list. -/
def docContains (doc : List Line) (needle : List Char) : Bool :=
  doc.any (fun l => containsSub needle l)

/-- The producer line appended by `patchTomlConfigForQueues` and also the
needle of its short-circuit guard (config.ts line 50):
`queue = "<queueName>"`. -/
def qLine (q : List Char) : Line :=
  "queue = \"".toList ++ (q ++ ['"'])

/-- The binding line of the appended producer block: `binding = "<name>"`. -/
def bLine (b : List Char) : Line :=
  "binding = \"".toList ++ (b ++ ['"'])

/-- Lines of the HTML-rule block appended by step 1 (config.ts lines 59-64).
The block literal starts and ends with a newline, so its lines are exactly
these, with the trailing empty line produced by the final newline. -/
def htmlRuleLines : List Line :=
  ["[[rules]]".toList, "type = \"Text\"".toList,
   "globs = [\"**/*.html\"]".toList, "fallthrough = true".toList, []]

/-- Lines of the producer/consumer block appended by step 2
(config.ts lines 69-80). -/
def queueBlockLines (cfg : QueueConfig) : List Line :=
  ["# Queue Configuration".toList,
   "[[queues.producers]]".toList,
   qLine cfg.queueName.toList,
   bLine cfg.bindingName.toList,
   [],
   "[[queues.consumers]]".toList,
   qLine cfg.queueName.toList,
   "max_batch_size = ".toList ++ (toString (cfg.maxBatchSize.getD 4)).toList,
   "max_batch_timeout = ".toList ++ (toString (cfg.maxBatchTimeout.getD 3)).toList,
   "max_retries = ".toList ++ (toString (cfg.maxRetries.getD 3)).toList,
   []]

/-- Lines of the durable-object block appended by step 3
(config.ts lines 85-90). -/
def doBlockLines : List Line :=
  ["# Durable Object for Event Storage".toList,
   "[[durable_objects.bindings]]".toList,
   "name = \"EVENT_STORE\"".toList,
   "class_name = \"EventStore\"".toList, []]

/-- Lines of the migration block appended by step 4 (config.ts lines 96-101). -/
def migBlockLines : List Line :=
  ["# Durable Object Migrations".toList,
   "[[migrations]]".toList,
   "tag = \"v1\"".toList,
   "new_classes = [\"EventStore\"]".toList, []]

/-- The needle of step 1's presence check (config.ts line 58). -/
def htmlNeedle : List Char := "globs = [\"**/*.html\"]".toList

/-- The needle of step 3's presence check (config.ts line 84). -/
def esNeedle : List Char := "name = \"EVENT_STORE\"".toList

/-- The needle of step 4's presence check (config.ts line 95). -/
def migNeedle : List Char := "new_classes = [\"EventStore\"]".toList

/-- `patchTomlConfigForQueues` (config.ts lines 35-114) on the line list.
The guard and the three presence checks all probe `content`, the original
document, not the partially updated one — exactly as in the source, and the
blocks are appended in source order (HTML rule, producer/consumer block,
durable-object block, migration block). -/
def patchTomlConfigForQueues (doc : List Line) (cfg : QueueConfig) : List Line :=
  if docContains doc (qLine cfg.queueName.toList) then doc
  else
    (if docContains doc htmlNeedle then doc else doc ++ htmlRuleLines)
    ++ queueBlockLines cfg
    ++ (if docContains doc esNeedle then [] else doBlockLines)
    ++ (if docContains doc migNeedle then [] else migBlockLines)

/-! ## A semantic reading of the structured-text document

Modelled from the spec: the repository patches the structured-text format
with raw string operations and contains no parser for it, but the spec's
data model (§3) gives the document a logical shape "regardless of surface
syntax" — `queues.producers` is an ordered sequence of entries with a
`queue` value, and likewise for the other sections.  The functions below
read that logical shape off the line list: an `[[section]]` header line
opens a section, and `key = value` lines inside it contribute the entries.
Whitespace around `=` and at the start of a line is insignificant, as in
the structured-text format itself. -/

/-- Strip leading spaces. -/
def dropSpaces : List Char → List Char
  | [] => []
  | c :: rest => if c = ' ' then dropSpaces rest else c :: rest

/-- Read the characters of a quoted value up to the closing quote, which
must end the line. -/
def takeQuoted : List Char → Option (List Char)
  | [] => none
  | c :: rest =>
    if c = '"' then if rest = [] then some [] else none
    else (takeQuoted rest).map (fun v => c :: v)

/-- The raw right-hand side of a `key = value` line, when the line binds
exactly `key`. -/
def keyRawValue (key : List Char) (l : Line) : Option (List Char) :=
  let t := dropSpaces l
  if leadEq key t then
    match dropSpaces (t.drop key.length) with
    | '=' :: r => some (dropSpaces r)
    | _ => none
  else none

/-- The string content of a `key = "value"` line. -/
def keyQuotedValue (key : List Char) (l : Line) : Option (List Char) :=
  match keyRawValue key l with
  | some ('"' :: r) => takeQuoted r
  | _ => none

/-- Does the line open a (any) `[...]` section? -/
def lineIsHeader (l : Line) : Bool :=
  match dropSpaces l with
  | '[' :: _ => true
  | _ => false

/-- Does the line open precisely the section `hdr`? -/
def lineIsSection (hdr : List Char) (l : Line) : Bool :=
  dropSpaces l = hdr

/-- What a line means to the scanner for section `hdr` and key `key`. -/
inductive LineClass where
  | sec : LineClass
  | hdr : LineClass
  | keyVal : List Char → LineClass
  | other : LineClass
deriving DecidableEq

/-- Classify one line. -/
def lineClass (hdr key : List Char) (l : Line) : LineClass :=
  if lineIsSection hdr l then .sec
  else if lineIsHeader l then .hdr
  else
    match keyQuotedValue key l with
    | some v => .keyVal v
    | none => .other

/-- Collect the quoted values of `key = "..."` lines that lie inside
`[[hdr]]` sections.  The boolean is the "inside the section" state. -/
def sectionValuesAux (hdr key : List Char) : Bool → List Line → List (List Char)
  | _, [] => []
  | inside, l :: ls =>
    match lineClass hdr key l, inside with
    | .sec, _ => sectionValuesAux hdr key true ls
    | .hdr, _ => sectionValuesAux hdr key false ls
    | .keyVal v, true => v :: sectionValuesAux hdr key true ls
    | _, _ => sectionValuesAux hdr key inside ls

/-- The "inside the section" state after scanning the given lines. -/
def sectionStateAfter (hdr key : List Char) : Bool → List Line → Bool
  | b, [] => b
  | b, l :: ls =>
    match lineClass hdr key l with
    | .sec => sectionStateAfter hdr key true ls
    | .hdr => sectionStateAfter hdr key false ls
    | _ => sectionStateAfter hdr key b ls

/-- As `sectionValuesAux`, but collecting raw (not necessarily quoted)
right-hand sides. -/
def sectionRawValuesAux (hdr key : List Char) : Bool → List Line → List (List Char)
  | _, [] => []
  | inside, l :: ls =>
    if lineIsSection hdr l then sectionRawValuesAux hdr key true ls
    else if lineIsHeader l then sectionRawValuesAux hdr key false ls
    else
      match inside, keyRawValue key l with
      | true, some v => v :: sectionRawValuesAux hdr key true ls
      | _, _ => sectionRawValuesAux hdr key inside ls

/-- The `[[queues.producers]]` section header. -/
def producersHdr : List Char := "[[queues.producers]]".toList

/-- The `queue` key. -/
def queueKey : List Char := "queue".toList

/-- The `queue` values of the document's `queues.producers` entries. -/
def tomlProducerQueues (doc : List Line) : List (List Char) :=
  sectionValuesAux producersHdr queueKey false doc

/-- The `name` values of the document's `durable_objects.bindings` entries. -/
def tomlBindingNames (doc : List Line) : List (List Char) :=
  sectionValuesAux "[[durable_objects.bindings]]".toList "name".toList false doc

/-- How many `migrations` entries have a `new_classes` list naming
`EventStore` (each entry binds `new_classes` at most once, so counting the
lines counts the entries). -/
def tomlEventStoreMigrationCount (doc : List Line) : Nat :=
  (sectionRawValuesAux "[[migrations]]".toList "new_classes".toList false doc).countP
    (fun v => containsSub "\"EventStore\"".toList v)

/-- How many `rules` entries carry the `**/*.html` glob. -/
def tomlHtmlRuleCount (doc : List Line) : Nat :=
  (sectionRawValuesAux "[[rules]]".toList "globs".toList false doc).countP
    (fun v => containsSub "\"**/*.html\"".toList v)

/-- The uniqueness bounds of spec §3 for a structured-text document: producer
queues pairwise distinct, at most one `EVENT_STORE` binding, at most one
migration naming `EventStore`, at most one `**/*.html` rule. -/
abbrev tomlDocBounds (doc : List Line) : Prop :=
  (tomlProducerQueues doc).Nodup ∧
  (tomlBindingNames doc).countP (fun n => n = "EVENT_STORE".toList) ≤ 1 ∧
  tomlEventStoreMigrationCount doc ≤ 1 ∧
  tomlHtmlRuleCount doc ≤ 1

/-- The uniqueness bounds of spec §3 for a JSON-like document. -/
abbrev jsonDocBounds (doc : WranglerDoc) : Prop :=
  (doc.producers.map (fun p => p.queue)).Nodup ∧
  doc.doBindings.countP (fun b => b.name = "EVENT_STORE") ≤ 1 ∧
  doc.migrations.countP (fun m => m.new_classes.contains "EventStore") ≤ 1 ∧
  doc.rules.countP isHtmlTextRule ≤ 1

/-! ## Basic lemmas about the text probes -/

theorem leadEq_refl (l : List Char) : leadEq l l = true := by
  induction l with
  | nil => rfl
  | cons c cs ih => simp [leadEq, ih]

theorem containsSub_self (l : List Char) (h : l ≠ []) : containsSub l l = true := by
  cases l with
  | nil => exact absurd rfl h
  | cons c cs => simp [containsSub, leadEq_refl]

theorem docContains_append (a b : List Line) (n : List Char) :
    docContains (a ++ b) n = (docContains a n || docContains b n) := by
  simp [docContains, List.any_append]

theorem qLine_ne_nil (q : List Char) : qLine q ≠ [] := by
  simp [qLine]

theorem docContains_queueBlock (cfg : QueueConfig) :
    docContains (queueBlockLines cfg) (qLine cfg.queueName.toList) = true := by
  simp only [docContains, queueBlockLines, List.any_cons]
  rw [containsSub_self _ (qLine_ne_nil _)]
  simp

/-- The result of a structured-text patch always contains the guard needle
`queue = "<queueName>"`: either it was already present, or the appended
producer block supplies it. -/
theorem patchToml_contains_qLine (doc : List Line) (cfg : QueueConfig) :
    docContains (patchTomlConfigForQueues doc cfg) (qLine cfg.queueName.toList) = true := by
  rw [patchTomlConfigForQueues]
  by_cases hq : docContains doc (qLine cfg.queueName.toList)
  · rwa [if_pos hq]
  · rw [if_neg hq]
    simp only [docContains_append, docContains_queueBlock cfg, Bool.or_true, Bool.true_or]

/-- After a patch, the JSON guard always fires: the appended producer entry
carries exactly `cfg.queueName`. -/
theorem jsonQueueExists_patch (doc : WranglerDoc) (cfg : QueueConfig) :
    jsonQueueExists (patchJsonConfigForQueues doc cfg) cfg = true := by
  rw [patchJsonConfigForQueues]
  by_cases hq : jsonQueueExists doc cfg
  · rwa [if_pos hq]
  · rw [if_neg hq]
    simp [jsonQueueExists, List.any_append]

/-- C1. Applying the patcher twice with the same desired queue configuration
yields the same document as applying it once, on both paths; moreover the
second application takes the short-circuit return (`jsonQueueExists` /
`docContains` guard true), i.e. it returns success before computing any edit
and before any write, so the persisted bytes are those of the first
application. -/
theorem patchWranglerConfigForQueues_idempotent
    (doc : WranglerDoc) (lines : List Line) (cfg : QueueConfig) :
    patchJsonConfigForQueues (patchJsonConfigForQueues doc cfg) cfg
        = patchJsonConfigForQueues doc cfg
    ∧ jsonQueueExists (patchJsonConfigForQueues doc cfg) cfg = true
    ∧ patchTomlConfigForQueues (patchTomlConfigForQueues lines cfg) cfg
        = patchTomlConfigForQueues lines cfg
    ∧ docContains (patchTomlConfigForQueues lines cfg) (qLine cfg.queueName.toList) = true := by
  refine ⟨?_, jsonQueueExists_patch doc cfg, ?_, patchToml_contains_qLine lines cfg⟩
  · rw [patchJsonConfigForQueues, if_pos (jsonQueueExists_patch doc cfg)]
  · rw [patchTomlConfigForQueues, if_pos (patchToml_contains_qLine lines cfg)]

/-! ## Lemmas for the uniqueness bounds (C2) -/

theorem takeQuoted_append (v : List Char) (h : '"' ∉ v) :
    takeQuoted (v ++ ['"']) = some v := by
  induction v with
  | nil => rfl
  | cons c cs ih =>
    have hc : ¬ c = '"' := fun hc => h (hc ▸ List.mem_cons_self c cs)
    have ih' := ih (fun hm => h (List.mem_cons_of_mem c hm))
    simp [takeQuoted, hc, ih']

theorem keyQuotedValue_qLine (q : List Char) (h : '"' ∉ q) :
    keyQuotedValue queueKey (qLine q) = some q := by
  have step : keyQuotedValue queueKey (qLine q) = takeQuoted (q ++ ['"']) := rfl
  rw [step, takeQuoted_append q h]

theorem lineClass_qLine (q : List Char) (h : '"' ∉ q) :
    lineClass producersHdr queueKey (qLine q) = .keyVal q := by
  have h1 : lineIsSection producersHdr (qLine q) = false := rfl
  have h2 : lineIsHeader (qLine q) = false := rfl
  simp [lineClass, h1, h2, keyQuotedValue_qLine q h]

theorem sectionValuesAux_append (hdr key : List Char) (b : Bool) (xs ys : List Line) :
    sectionValuesAux hdr key b (xs ++ ys)
      = sectionValuesAux hdr key b xs
        ++ sectionValuesAux hdr key (sectionStateAfter hdr key b xs) ys := by
  induction xs generalizing b with
  | nil => rfl
  | cons l ls ih =>
    rcases hc : lineClass hdr key l with _ | _ | v | _ <;>
      cases b <;> simp [sectionValuesAux, sectionStateAfter, hc, ih]

/-- The producer/consumer block contributes exactly one producer entry,
`cfg.queueName`, whatever section state the preceding text ends in. -/
theorem sectionValues_queueBlock (cfg : QueueConfig) (b : Bool)
    (h : '"' ∉ cfg.queueName.toList) :
    sectionValuesAux producersHdr queueKey b (queueBlockLines cfg)
      = [cfg.queueName.toList] := by
  have c1 : lineClass producersHdr queueKey "# Queue Configuration".toList = .other := rfl
  have c2 : lineClass producersHdr queueKey "[[queues.producers]]".toList = .sec := rfl
  have c3 := lineClass_qLine cfg.queueName.toList h
  have c4 : lineClass producersHdr queueKey (bLine cfg.bindingName.toList) = .other := rfl
  have c5 : lineClass producersHdr queueKey [] = .other := rfl
  have c6 : lineClass producersHdr queueKey "[[queues.consumers]]".toList = .hdr := rfl
  have c7 : lineClass producersHdr queueKey
      ("max_batch_size = ".toList ++ (toString (cfg.maxBatchSize.getD 4)).toList)
      = .other := rfl
  have c8 : lineClass producersHdr queueKey
      ("max_batch_timeout = ".toList ++ (toString (cfg.maxBatchTimeout.getD 3)).toList)
      = .other := rfl
  have c9 : lineClass producersHdr queueKey
      ("max_retries = ".toList ++ (toString (cfg.maxRetries.getD 3)).toList)
      = .other := rfl
  cases b <;>
    simp only [queueBlockLines, sectionValuesAux, c1, c2, c3, c4, c5, c6, c7, c8, c9]

theorem sectionValuesAux_nil (hdr key : List Char) (b : Bool) :
    sectionValuesAux hdr key b [] = [] := rfl

/-- The section state after the producer/consumer block is "outside":
its last header is `[[queues.consumers]]`. -/
theorem sectionState_queueBlock (cfg : QueueConfig) (b : Bool)
    (h : '"' ∉ cfg.queueName.toList) :
    sectionStateAfter producersHdr queueKey b (queueBlockLines cfg) = false := by
  have c1 : lineClass producersHdr queueKey "# Queue Configuration".toList = .other := rfl
  have c2 : lineClass producersHdr queueKey "[[queues.producers]]".toList = .sec := rfl
  have c3 := lineClass_qLine cfg.queueName.toList h
  have c4 : lineClass producersHdr queueKey (bLine cfg.bindingName.toList) = .other := rfl
  have c5 : lineClass producersHdr queueKey [] = .other := rfl
  have c6 : lineClass producersHdr queueKey "[[queues.consumers]]".toList = .hdr := rfl
  have c7 : lineClass producersHdr queueKey
      ("max_batch_size = ".toList ++ (toString (cfg.maxBatchSize.getD 4)).toList)
      = .other := rfl
  have c8 : lineClass producersHdr queueKey
      ("max_batch_timeout = ".toList ++ (toString (cfg.maxBatchTimeout.getD 3)).toList)
      = .other := rfl
  have c9 : lineClass producersHdr queueKey
      ("max_retries = ".toList ++ (toString (cfg.maxRetries.getD 3)).toList)
      = .other := rfl
  cases b <;>
    simp only [queueBlockLines, sectionStateAfter, c1, c2, c3, c4, c5, c6, c7, c8, c9]

theorem sectionValues_htmlRule (b : Bool) :
    sectionValuesAux producersHdr queueKey b htmlRuleLines = [] := by
  cases b <;> rfl

theorem sectionState_htmlRule (b : Bool) :
    sectionStateAfter producersHdr queueKey b htmlRuleLines = false := by
  cases b <;> rfl

theorem sectionValues_doBlock (b : Bool) :
    sectionValuesAux producersHdr queueKey b doBlockLines = [] := by
  cases b <;> rfl

theorem sectionState_doBlock (b : Bool) :
    sectionStateAfter producersHdr queueKey b doBlockLines = false := by
  cases b <;> rfl

theorem sectionValues_migBlock (b : Bool) :
    sectionValuesAux producersHdr queueKey b migBlockLines = [] := by
  cases b <;> rfl

/-- When the structured-text guard does not fire, the patch appends exactly
one producer entry (`cfg.queueName`) to the document's producer sequence. -/
theorem tomlProducerQueues_patch (doc : List Line) (cfg : QueueConfig)
    (hq : docContains doc (qLine cfg.queueName.toList) = false)
    (hquote : '"' ∉ cfg.queueName.toList) :
    tomlProducerQueues (patchTomlConfigForQueues doc cfg)
      = tomlProducerQueues doc ++ [cfg.queueName.toList] := by
  rw [patchTomlConfigForQueues, if_neg (by rw [hq]; exact Bool.false_ne_true)]
  rw [tomlProducerQueues, tomlProducerQueues]
  rw [sectionValuesAux_append, sectionValuesAux_append, sectionValuesAux_append]
  by_cases h1 : docContains doc htmlNeedle <;>
    by_cases h3 : docContains doc esNeedle <;>
      by_cases h4 : docContains doc migNeedle <;>
        simp [h1, h3, h4, sectionValuesAux_append, sectionValuesAux_nil,
          sectionValues_htmlRule, sectionState_htmlRule,
          sectionValues_queueBlock cfg _ hquote, sectionState_queueBlock cfg _ hquote,
          sectionValues_doBlock, sectionState_doBlock, sectionValues_migBlock]

/-- C2, counterexample. The claim fails on the structured-text path: a
document whose single producer entry spells its queue key without spaces
(`queue="demo-queue"`) satisfies all four starting bounds, yet the literal
substring guard `queue = "demo-queue"` does not fire, so patching with queue
name `demo-queue` appends a second producer entry with the same queue
value. -/
theorem tomlBounds_counterexample :
    tomlDocBounds
      ["[[queues.producers]]".toList, "queue=\"demo-queue\"".toList,
       "binding=\"A\"".toList, []]
    ∧ ¬ tomlDocBounds
      (patchTomlConfigForQueues
        ["[[queues.producers]]".toList, "queue=\"demo-queue\"".toList,
         "binding=\"A\"".toList, []]
        { queueName := "demo-queue", bindingName := "DEMO_QUEUE" }) := by
  constructor
  · decide
  · decide

/-- C2, amended. The four uniqueness bounds are preserved by the JSON/JSONC
patcher for every starting document satisfying them.  For the structured-text
patcher, whose entry detection is by literal substring, producer-queue
uniqueness is preserved provided every producer entry of the starting
document is spelled in the canonical form `queue = "<value>"` that the guard
searches for (hypothesis `hcanon`); the queue name contains no quote
character, as guaranteed by the `[a-z0-9-]+` validation of the prompts. -/
theorem patchForQueues_bounds_amended
    (doc : WranglerDoc) (lines : List Line) (cfg : QueueConfig)
    (hjson : jsonDocBounds doc)
    (hnodup : (tomlProducerQueues lines).Nodup)
    (hcanon : ∀ q ∈ tomlProducerQueues lines, docContains lines (qLine q) = true)
    (hquote : '"' ∉ cfg.queueName.toList) :
    jsonDocBounds (patchJsonConfigForQueues doc cfg)
    ∧ (tomlProducerQueues (patchTomlConfigForQueues lines cfg)).Nodup := by
  obtain ⟨hp, hb, hm, hr⟩ := hjson
  constructor
  · rw [patchJsonConfigForQueues]
    by_cases hq : jsonQueueExists doc cfg
    · rw [if_pos hq]; exact ⟨hp, hb, hm, hr⟩
    · rw [if_neg hq]
      have hnotin : ∀ p ∈ doc.producers, ¬ p.queue = cfg.queueName := by
        simpa [jsonQueueExists] using hq
      refine ⟨?_, ?_, ?_, ?_⟩
      · simp only [List.map_append, List.map_cons, List.map_nil]
        rw [List.nodup_append]
        refine ⟨hp, List.nodup_singleton _, ?_⟩
        intro a ha hb'
        simp only [List.mem_singleton] at hb'
        obtain ⟨p, hmem, hpq⟩ := List.mem_map.mp ha
        exact hnotin p hmem (by rw [hpq, hb'])
      · by_cases he : hasEventStore doc
        · simpa [he] using hb
        · have hzero : doc.doBindings.countP (fun b => decide (b.name = "EVENT_STORE")) = 0 := by
            rw [List.countP_eq_zero]
            simpa [hasEventStore] using he
          simp [he, List.countP_append, hzero, eventStoreBinding, List.countP_cons]
      · by_cases he : hasEventStoreMigration doc
        · simpa [he] using hm
        · have hzero : ∀ a ∈ doc.migrations, "EventStore" ∉ a.new_classes := by
            intro a ha hcon
            simp only [hasEventStoreMigration, List.any_eq_true] at he
            exact he ⟨a, ha, by simpa using hcon⟩
          simp [he, List.countP_append, List.countP_cons, eventStoreMigration,
            List.countP_eq_zero]
          exact hzero
      · by_cases he : doc.rules.any isHtmlTextRule
        · simpa [he] using hr
        · have hzero : doc.rules.countP isHtmlTextRule = 0 := by
            rw [List.countP_eq_zero]
            simpa using he
          simp [he, List.countP_append, hzero, List.countP_cons, htmlRule, isHtmlTextRule]
  · by_cases hg : docContains lines (qLine cfg.queueName.toList)
    · rw [patchTomlConfigForQueues, if_pos hg]; exact hnodup
    · rw [Bool.not_eq_true] at hg
      rw [tomlProducerQueues_patch lines cfg hg hquote, List.nodup_append]
      refine ⟨hnodup, List.nodup_singleton _, ?_⟩
      intro a ha ha'
      simp only [List.mem_singleton] at ha'
      subst ha'
      exact absurd (hcanon _ ha) (by rw [hg]; exact Bool.false_ne_true)

/-- Witness for `patchForQueues_bounds_amended` at the empty document and
empty line list. -/
theorem patchForQueues_bounds_amended_witness :
    jsonDocBounds (patchJsonConfigForQueues
      { rules := [], producers := [], consumers := [], doBindings := [],
        migrations := [], extra := [] }
      { queueName := "demo-queue", bindingName := "DEMO_QUEUE" })
    ∧ (tomlProducerQueues (patchTomlConfigForQueues []
        { queueName := "demo-queue", bindingName := "DEMO_QUEUE" })).Nodup :=
  patchForQueues_bounds_amended _ _ _
    (by decide) (by decide) (by simp [tomlProducerQueues, sectionValuesAux]) (by decide)

/-- C3. Scenario C: patching the minimal JSON-like document with only an
unrelated `name` member, with queue `demo-queue`, binding `DEMO_QUEUE` and
the numeric defaults, produces exactly the expected producer, consumer,
rule, binding and migration entries, and re-running the same call leaves
every one of these sequences at length 1. -/
theorem patchJson_scenarioC :
    (patchJsonConfigForQueues
        { rules := [], producers := [], consumers := [], doBindings := [],
          migrations := [], extra := [("name", "x")] }
        { queueName := "demo-queue", bindingName := "DEMO_QUEUE" }).producers
      = [{ queue := "demo-queue", binding := "DEMO_QUEUE" }]
    ∧ (patchJsonConfigForQueues
        { rules := [], producers := [], consumers := [], doBindings := [],
          migrations := [], extra := [("name", "x")] }
        { queueName := "demo-queue", bindingName := "DEMO_QUEUE" }).consumers
      = [{ queue := "demo-queue", max_batch_size := 4, max_batch_timeout := 3,
           max_retries := 3 }]
    ∧ (patchJsonConfigForQueues
        { rules := [], producers := [], consumers := [], doBindings := [],
          migrations := [], extra := [("name", "x")] }
        { queueName := "demo-queue", bindingName := "DEMO_QUEUE" })
      = { rules := [htmlRule],
          producers := [{ queue := "demo-queue", binding := "DEMO_QUEUE" }],
          consumers := [{ queue := "demo-queue", max_batch_size := 4,
                          max_batch_timeout := 3, max_retries := 3 }],
          doBindings := [eventStoreBinding],
          migrations := [eventStoreMigration],
          extra := [("name", "x")] }
    ∧ (patchJsonConfigForQueues (patchJsonConfigForQueues
        { rules := [], producers := [], consumers := [], doBindings := [],
          migrations := [], extra := [("name", "x")] }
        { queueName := "demo-queue", bindingName := "DEMO_QUEUE" })
        { queueName := "demo-queue", bindingName := "DEMO_QUEUE" })
      = patchJsonConfigForQueues
        { rules := [], producers := [], consumers := [], doBindings := [],
          migrations := [], extra := [("name", "x")] }
        { queueName := "demo-queue", bindingName := "DEMO_QUEUE" } := by
  exact ⟨by decide, by decide, by decide, by decide⟩

/-! ## The primitive registry (`src/primitives/registry.ts`)

A primitive is embedded by its data fields; the behaviour slots
(`promptNew`, `generateFiles`, ...) are never inspected by the registry, and
the presence of the optional `promptExisting` slot — which the command
dispatcher does branch on — is recorded as the flag `hasPromptExisting`. -/

structure Prim where
  id : String
  name : String
  description : String
  supportsNewProject : Bool
  supportsExisting : Bool
  hasPromptExisting : Bool
deriving DecidableEq

/-- The registry's backing store: a JavaScript `Map` from `id` to primitive,
modelled as an association list in insertion order.  `Map.set` on an existing
key replaces the value in place, keeping the key's original position in the
iteration order; on a new key it appends. -/
abbrev Registry := List (String × Prim)

namespace PrimitiveRegistry

/-- `register` (registry.ts lines 10-12): `this.primitives.set(primitive.id, primitive)`. -/
def register (r : Registry) (p : Prim) : Registry :=
  if r.any (fun e => e.1 = p.id) then
    r.map (fun e => if e.1 = p.id then (e.1, p) else e)
  else r ++ [(p.id, p)]

/-- `get` (registry.ts lines 14-16). -/
def get (r : Registry) (id : String) : Option Prim :=
  (r.find? (fun e => e.1 = id)).map (fun e => e.2)

/-- `getAll` (registry.ts lines 18-20): the values in iteration order. -/
def getAll (r : Registry) : List Prim :=
  r.map (fun e => e.2)

/-- `getForNewProject` (registry.ts lines 22-24). -/
def getForNewProject (r : Registry) : List Prim :=
  (getAll r).filter (fun p => p.supportsNewProject)

/-- `getForExisting` (registry.ts lines 26-28). -/
def getForExisting (r : Registry) : List Prim :=
  (getAll r).filter (fun p => p.supportsExisting)

/-- `has` (registry.ts lines 30-32). -/
def has (r : Registry) (id : String) : Bool :=
  r.any (fun e => e.1 = id)

/-- The registry state reached by a sequence of `register` calls starting
from the empty singleton instance. -/
def ofRegistrations (ps : List Prim) : Registry :=
  ps.foldl register []

end PrimitiveRegistry

open PrimitiveRegistry in
/-- C7. In every registry state reachable by `register` calls, the
existing-project listing contains only primitives with
`supportsExisting = true`, the new-project listing only primitives with
`supportsNewProject = true`, and each listing is exactly the registration
order (`getAll`) restricted to the matching capability flag. -/
theorem registry_capability_filtering (ps : List Prim) :
    ((getForExisting (ofRegistrations ps)).all fun p => p.supportsExisting) = true
    ∧ ((getForNewProject (ofRegistrations ps)).all fun p => p.supportsNewProject) = true
    ∧ getForExisting (ofRegistrations ps)
        = (getAll (ofRegistrations ps)).filter (fun p => p.supportsExisting)
    ∧ getForNewProject (ofRegistrations ps)
        = (getAll (ofRegistrations ps)).filter (fun p => p.supportsNewProject) := by
  refine ⟨?_, ?_, rfl, rfl⟩ <;>
    simp [getForExisting, getForNewProject, List.all_eq_true]

open PrimitiveRegistry in
/-- C9. Registering a primitive whose `id` is already present replaces the
stored primitive but keeps the original position: the key sequence is
unchanged (so the new primitive is not moved to the end), `getAll` is the old
value sequence with the entry for that id replaced, and `get` now returns the
new primitive. -/
theorem register_existing_id_keeps_position (r : Registry) (p : Prim)
    (h : has r p.id = true) :
    (register r p).map (fun e => e.1) = r.map (fun e => e.1)
    ∧ getAll (register r p) = r.map (fun e => if e.1 = p.id then p else e.2)
    ∧ get (register r p) p.id = some p := by
  simp only [register, if_pos (show (r.any fun e => e.1 = p.id) = true by simpa [has] using h)]
  refine ⟨?_, ?_, ?_⟩
  · rw [List.map_map]
    apply List.map_congr_left
    intro e _
    by_cases he : e.1 = p.id <;> simp [he]
  · simp only [getAll]
    rw [List.map_map]
    apply List.map_congr_left
    intro e _
    by_cases he : e.1 = p.id <;> simp [he]
  · unfold PrimitiveRegistry.get
    rw [List.find?_map]
    have hcomp : ((fun e : String × Prim => decide (e.1 = p.id))
          ∘ fun e : String × Prim => if e.1 = p.id then (e.1, p) else e)
        = fun e : String × Prim => decide (e.1 = p.id) := by
      funext a
      by_cases ha : a.1 = p.id <;> simp [ha]
    rw [hcomp]
    simp only [has, List.any_eq_true] at h
    obtain ⟨e, hmem, heq⟩ := h
    have hsome : (r.find? fun e : String × Prim => decide (e.1 = p.id)).isSome :=
      List.find?_isSome.mpr ⟨e, hmem, heq⟩
    obtain ⟨e0, hfind⟩ := Option.isSome_iff_exists.mp hsome
    have he0 : e0.1 = p.id := by simpa using List.find?_some hfind
    simp [hfind, he0]

/-- Witness for `register_existing_id_keeps_position`: re-registering the id
`queues` in a two-entry registry keeps it in first position with the new
value. -/
theorem register_existing_id_keeps_position_witness :
    PrimitiveRegistry.has
        [("queues", ⟨"queues", "Queues", "d1", true, true, true⟩),
         ("worker-only", ⟨"worker-only", "Worker only", "d2", true, false, false⟩)]
        (Prim.id ⟨"queues", "Queues2", "d3", false, true, true⟩) = true
    ∧ ((PrimitiveRegistry.register
        [("queues", ⟨"queues", "Queues", "d1", true, true, true⟩),
         ("worker-only", ⟨"worker-only", "Worker only", "d2", true, false, false⟩)]
        ⟨"queues", "Queues2", "d3", false, true, true⟩).map (fun e => e.1)
      = List.map (fun e => e.1)
        [("queues", (⟨"queues", "Queues", "d1", true, true, true⟩ : Prim)),
         ("worker-only", ⟨"worker-only", "Worker only", "d2", true, false, false⟩)]
    ∧ PrimitiveRegistry.getAll (PrimitiveRegistry.register
        [("queues", ⟨"queues", "Queues", "d1", true, true, true⟩),
         ("worker-only", ⟨"worker-only", "Worker only", "d2", true, false, false⟩)]
        ⟨"queues", "Queues2", "d3", false, true, true⟩)
      = List.map
          (fun e => if e.1 = Prim.id ⟨"queues", "Queues2", "d3", false, true, true⟩
            then ⟨"queues", "Queues2", "d3", false, true, true⟩ else e.2)
          [("queues", (⟨"queues", "Queues", "d1", true, true, true⟩ : Prim)),
           ("worker-only", ⟨"worker-only", "Worker only", "d2", true, false, false⟩)]
    ∧ PrimitiveRegistry.get (PrimitiveRegistry.register
        [("queues", ⟨"queues", "Queues", "d1", true, true, true⟩),
         ("worker-only", ⟨"worker-only", "Worker only", "d2", true, false, false⟩)]
        ⟨"queues", "Queues2", "d3", false, true, true⟩)
        (Prim.id ⟨"queues", "Queues2", "d3", false, true, true⟩)
      = some ⟨"queues", "Queues2", "d3", false, true, true⟩) :=
  ⟨by decide,
   register_existing_id_keeps_position
     [("queues", ⟨"queues", "Queues", "d1", true, true, true⟩),
      ("worker-only", ⟨"worker-only", "Worker only", "d2", true, false, false⟩)]
     ⟨"queues", "Queues2", "d3", false, true, true⟩ (by decide)⟩

/-! ## File generation (`src/unnamed/part_002` and `src/lib/flows/existing.ts`)

The filesystem is an association list from path to file content.  The spec
treats the template generators (`generateQueueWorkerCode`,
`generateEventStoreCode`, `generateDashboardHTML`) as collaborators producing
opaque text blobs written verbatim (spec §1), so file contents are modelled
by which generator produced them (with its arguments), or as opaque
pre-existing user text. -/

inductive FileData where
  | user : String → FileData
  | queueWorker : String → String → FileData
  | eventStore : FileData
  | dashboard : FileData
  | queueHandler : String → String → FileData
deriving DecidableEq

/-- The project tree, paths relative to the project directory. -/
abbrev FS := List (String × FileData)

/-- Does a file exist (`fs.pathExists`)? -/
def fsExists (fs : FS) (path : String) : Bool :=
  fs.any (fun e => e.1 = path)

/-- `fs.writeFile`: overwrite in place, or create. -/
def fsWrite (fs : FS) (path : String) (d : FileData) : FS :=
  if fs.any (fun e => e.1 = path) then
    fs.map (fun e => if e.1 = path then (path, d) else e)
  else fs ++ [(path, d)]

/-- Read a file's content. -/
def fsLookup (fs : FS) (path : String) : Option FileData :=
  (fs.find? (fun e => e.1 = path)).map (fun e => e.2)

/-- `QueuesPrimitive.generateFiles` (`src/unnamed/part_002` lines 51-77):
writes `src/index.ts`, `src/event-store.ts` and `src/dashboard.html` in that
order, with no pre-existence check on any of them. -/
def queuesGenerateFiles (fs : FS) (cfg : QueueConfig) : FS :=
  fsWrite
    (fsWrite
      (fsWrite fs "src/index.ts" (.queueWorker cfg.queueName cfg.bindingName))
      "src/event-store.ts" .eventStore)
    "src/dashboard.html" .dashboard

/-- One guarded write of `runExistingProjectFlow`: skip with a warning when
the target already exists. -/
def writeIfAbsent (fs : FS) (path : String) (d : FileData) (warnMsg : String) :
    FS × List String :=
  if fsExists fs path then (fs, [warnMsg]) else (fsWrite fs path d, [])

/-- The file-generation phase of the legacy `runExistingProjectFlow`
(`src/lib/flows/existing.ts` lines 54-82): guarded writes of
`event-store.ts`, `dashboard.html` and the reference file `queue-handler.ts`;
`index.ts` is never touched. -/
def existingFlowGenerateFiles (fs : FS) (q b : String) : FS × List String :=
  let r1 := writeIfAbsent fs "src/event-store.ts" .eventStore
    "event-store.ts already exists, skipping"
  let r2 := writeIfAbsent r1.1 "src/dashboard.html" .dashboard
    "dashboard.html already exists, skipping"
  let r3 := writeIfAbsent r2.1 "src/queue-handler.ts" (.queueHandler q b)
    "queue-handler.ts already exists, skipping"
  (r3.1, r1.2 ++ r2.2 ++ r3.2)

/-! ## Deploy and flow orchestration
(`src/lib/deploy.ts`, `src/lib/flows/generic-new.ts`,
`src/lib/flows/generic-existing.ts`)

Flows are embedded as functions from the outcomes of their collaborator
calls (prompt answers, child-process exit states) to a termination outcome
plus the ordered trace of user-visible events they emit.  `FlowOutcome.completed`
is a normal return, which at the CLI entry terminates the process with exit
code 0. -/

/-- `DeploymentInfo` (`src/primitives/base.ts` lines 41-44). -/
structure DeployInfo where
  successMessage : Option String
  nextSteps : Option (List String)
deriving DecidableEq

inductive Ev where
  | stepCreatingProject
  | errScaffold
  | detectedConfig : String → Ev
  | errNoConfig
  | stepAddingConfig : String → Ev
  | errPatchFailed
  | stepGenerating : String → Ev
  | successCreated : String → Ev
  | preDeploy
  | queueCreateStep : String → Ev
  | queueCreated : String → Ev
  | queueCreateWarn
  | deployStep
  | deploySuccess : String → Ev
  | liveMsg
  | dashUrl
  | deployFailed
  | loginHint
  | deployLaterHint : String → Ev
  | createQueueHint : String → Ev
  | successMessage : String → Ev
  | localDevInstructions : String → Ev
  | nextStepsMsg : List String → Ev
  | curlHint
  | deployLaterBlock : String → Ev
  | queuesCreateLater : String → Ev
  | successBanner : String → Ev
  | manualStepsMsg
  | resourceCreateReminder : String → Ev
  | existingNextSteps
deriving DecidableEq

inductive FlowOutcome where
  | exit : Nat → FlowOutcome
  | completed : FlowOutcome
deriving DecidableEq

/-- Outcomes of the two child processes `deployProject` runs. -/
structure DeployEnv where
  queueCreateOk : Bool
  deployOk : Bool
  authErr : Bool
deriving DecidableEq

/-- `promptDeploy` (deploy.ts lines 11-20): a cancelled confirm prompt leaves
`response.deploy` undefined, and `response.deploy ?? false` maps it to
`false`, exactly like an explicit "no". -/
def promptDeploy (resp : Option Bool) : Bool :=
  resp.getD false

/-- `deployProject` (deploy.ts lines 22-75).  The function catches its own
failures: on a failed deploy it logs the error and local fallback
instructions and RETURNS NORMALLY, so the caller cannot observe the
failure. -/
def deployProject (queueName : Option String) (projectName : String)
    (env : DeployEnv) : List Ev :=
  (match queueName with
   | some q => [.queueCreateStep q]
       ++ (if env.queueCreateOk then [.queueCreated q] else [.queueCreateWarn])
   | none => [])
  ++ [.deployStep]
  ++ (if env.deployOk then [.deploySuccess projectName, .liveMsg, .dashUrl]
      else [.deployFailed]
        ++ (if env.authErr then [.loginHint]
            else [.deployLaterHint projectName]
              ++ (match queueName with
                  | some q => [.createQueueHint q]
                  | none => [])))

/-- Collaborator outcomes and primitive data consumed by one
`runGenericNewFlow` run. -/
structure NewFlowEnv where
  primId : String
  primName : String
  hasPatchConfig : Bool
  hasPreDeploy : Bool
  deployInfo : Option DeployInfo
  projectName : Option String
  queueName : String
  dirExists : Bool
  scaffoldOk : Bool
  foundConfig : Option String
  patchResult : Bool
  deployResp : Option Bool
  deployEnv : DeployEnv
deriving DecidableEq

/-- `runGenericNewFlow` (generic-new.ts lines 12-159).  Note that after
`deployProject` returns the flow prints `deployInfo.successMessage`
unconditionally (lines 122-129) — it has no way to know whether the deploy
succeeded — and that `deployProject` is called without a queue name
(lines 117-120). -/
def runGenericNewFlow (env : NewFlowEnv) : FlowOutcome × List Ev :=
  match env.projectName with
  | none => (.exit 1, [])
  | some pname =>
    if env.dirExists then (.exit 1, [])
    else if env.scaffoldOk = false then (.exit 1, [.stepCreatingProject, .errScaffold])
    else
      match env.foundConfig with
      | none => (.exit 1, [.stepCreatingProject, .errNoConfig])
      | some cfile =>
        let evs0 : List Ev := [.stepCreatingProject, .detectedConfig cfile]
        if env.hasPatchConfig && !env.patchResult then
          (.exit 1, evs0 ++ [.stepAddingConfig env.primName, .errPatchFailed])
        else
          let evs1 := evs0
            ++ (if env.hasPatchConfig then [.stepAddingConfig env.primName] else [])
            ++ [.stepGenerating env.primName, .successCreated pname]
          if promptDeploy env.deployResp then
            let evsPre : List Ev := if env.hasPreDeploy then [.preDeploy] else []
            let evsDep := deployProject none pname env.deployEnv
            let evsInfo : List Ev := match env.deployInfo with
              | some i =>
                (match i.successMessage with
                 | some m => [.successMessage m]
                 | none => []) ++ [.dashUrl]
              | none => []
            (.completed, evs1 ++ evsPre ++ evsDep ++ evsInfo)
          else
            let evsLocal : List Ev := [.localDevInstructions pname]
              ++ (match env.deployInfo with
                  | some i =>
                    match i.nextSteps with
                    | some st => [.nextStepsMsg st]
                    | none => []
                  | none => [])
              ++ [.curlHint, .deployLaterBlock pname]
              ++ (if env.primId = "queues" then [.queuesCreateLater env.queueName] else [])
            (.completed, evs1 ++ evsLocal)

/-- Collaborator outcomes and primitive data consumed by one
`runGenericExistingFlow` run. -/
structure ExistingFlowEnv where
  primId : String
  primName : String
  hasPatchConfig : Bool
  hasPreDeploy : Bool
  deployInfo : Option DeployInfo
  configPath : Option String
  patchResult : Bool
  queueName : String
  createResourceResp : Option Bool
deriving DecidableEq

/-- `runGenericExistingFlow` (generic-existing.ts lines 13-113).  After
`generateFiles` the queues branch prints the manual-integration message
(which states "Your existing index.ts was not modified"). -/
def runGenericExistingFlow (env : ExistingFlowEnv) : FlowOutcome × List Ev :=
  match env.configPath with
  | none => (.exit 1, [])
  | some _ =>
    if env.hasPatchConfig && !env.patchResult then
      (.exit 1, [.stepAddingConfig env.primName, .errPatchFailed])
    else
      let evs0 : List Ev :=
        (if env.hasPatchConfig then [.stepAddingConfig env.primName] else [])
        ++ [.stepGenerating env.primName, .successBanner env.primName]
        ++ (if env.primId = "queues" then [.manualStepsMsg] else [])
      let evs1 : List Ev := evs0 ++
        (if env.hasPreDeploy then
          (if env.createResourceResp.getD false then [.preDeploy]
           else if env.primId = "queues" then [.resourceCreateReminder env.queueName]
           else [])
         else [])
      (.completed, evs1 ++ [.existingNextSteps])

/-! ## The patcher boundary with fallible collaborators (C5) -/

/-- `s` ends with `suffix` (JavaScript `String.prototype.endsWith`). -/
def strEndsWith (s suffix : String) : Bool :=
  leadEq suffix.toList.reverse s.toList.reverse

/-- Outcomes of the fallible collaborator calls one
`patchWranglerConfigForQueues` invocation makes: the `fs.readFile`, the
`jsonc.parse` of the read content, the line view of the read content on the
structured-text path, and the `fs.writeFile`.  `some msg` in an error slot
means that call threw. -/
structure PatchEnv where
  readErr : Option String
  jsonParse : Except String WranglerDoc
  tomlContent : List Line
  writeErr : Option String

/-- `patchWranglerConfigForQueues` (config.ts lines 13-33) with its two
inner workers (lines 35-114 and 116-233), as a function of the collaborator
outcomes.  Every `try/catch` of the source is a `match` on the corresponding
error slot; the function returns `Bool`, never an exception. -/
def patchWranglerConfigForQueues (configPath : String) (env : PatchEnv)
    (cfg : QueueConfig) : Bool :=
  match env.readErr with
  | some _ => false
  | none =>
    if strEndsWith configPath ".toml" then
      if docContains env.tomlContent (qLine cfg.queueName.toList) then true
      else
        match env.writeErr with
        | some _ => false
        | none => true
    else
      match env.jsonParse with
      | .error _ => false
      | .ok doc =>
        if jsonQueueExists doc cfg then true
        else
          match env.writeErr with
          | some _ => false
          | none => true

/-! ## The CLI dispatcher (`src/commands/init.ts`) -/

/-- The project-context fields consumed by the dispatcher and the existing
flow; produced by `detectProjectContext` (`src/lib/detect.ts`). -/
structure ProjectContext where
  isWorkerProject : Bool
  wranglerConfigPath : Option String
deriving DecidableEq

/-- The command-line options of `init`. -/
structure InitOptions where
  add : Bool
  new : Bool
deriving DecidableEq

/-- The actions `init` can take, in order; `detect` is read-only probing,
the prompts are terminal interaction, and the two flow runs are where all
filesystem mutation happens. -/
inductive InitAct where
  | detect
  | promptSelect
  | promptNew
  | promptExisting
  | runNewFlow
  | runExistingFlow
deriving DecidableEq

/-- Does the action mutate the filesystem?  Only running a flow does. -/
def InitAct.mutates : InitAct → Bool
  | .runNewFlow => true
  | .runExistingFlow => true
  | _ => false

open PrimitiveRegistry in
/-- `init` (`src/commands/init.ts` lines 13-107), as a function of the
option flags, the detected context, the registry, and the prompt outcomes
(`none` is the cancellation sentinel).  Output: the termination outcome and
the ordered action trace.  The mutual-exclusion check at lines 15-18 runs
before anything else, even before detection. -/
def init (opts : InitOptions) (ctx : ProjectContext) (reg : Registry)
    (selResp : Option String) (promptNewRes promptExistingRes : Option Unit) :
    FlowOutcome × List InitAct :=
  if opts.add && opts.new then (.exit 1, [])
  else
    let acts0 : List InitAct := [.detect]
    if !opts.add && !opts.new then
      let prims := if ctx.isWorkerProject then getForExisting reg else getForNewProject reg
      if prims.length = 0 then (.exit 0, acts0)
      else
        let acts1 := acts0 ++ [InitAct.promptSelect]
        match selResp with
        | none => (.exit 0, acts1)
        | some pid =>
          match get reg pid with
          | none => (.exit 1, acts1)
          | some p =>
            if ctx.isWorkerProject then
              if !p.supportsExisting then (.exit 0, acts1)
              else if !p.hasPromptExisting then (.exit 1, acts1)
              else
                match promptExistingRes with
                | none => (.exit 0, acts1 ++ [InitAct.promptExisting])
                | some _ =>
                  (.completed, acts1 ++ [InitAct.promptExisting, InitAct.runExistingFlow])
            else
              match promptNewRes with
              | none => (.exit 0, acts1 ++ [InitAct.promptNew])
              | some _ => (.completed, acts1 ++ [InitAct.promptNew, InitAct.runNewFlow])
    else
      match get reg "queues" with
      | none => (.exit 1, acts0)
      | some qp =>
        if opts.new then
          match promptNewRes with
          | none => (.exit 0, acts0 ++ [InitAct.promptNew])
          | some _ => (.completed, acts0 ++ [InitAct.promptNew, InitAct.runNewFlow])
        else if opts.add then
          if !ctx.isWorkerProject then (.exit 1, acts0)
          else if !qp.hasPromptExisting then (.exit 1, acts0)
          else
            match promptExistingRes with
            | none => (.exit 0, acts0 ++ [InitAct.promptExisting])
            | some _ =>
              (.completed, acts0 ++ [InitAct.promptExisting, InitAct.runExistingFlow])
        else (.completed, acts0)

/-- C4, evaluation at the failing input. `QueuesPrimitive.generateFiles`
overwrites a pre-existing `src/index.ts` with freshly generated worker code
and emits no warning, contradicting the claimed skip-with-warning policy;
the legacy existing-project flow's file generation, by contrast, does skip a
pre-existing target with a warning and leaves its content unchanged. -/
theorem queuesGenerateFiles_overwrites_entry_point :
    fsExists [("src/index.ts", FileData.user "// my existing worker")] "src/index.ts" = true
    ∧ fsLookup
        (queuesGenerateFiles [("src/index.ts", FileData.user "// my existing worker")]
          { queueName := "demo-queue", bindingName := "DEMO_QUEUE" })
        "src/index.ts"
      = some (FileData.queueWorker "demo-queue" "DEMO_QUEUE")
    ∧ FileData.queueWorker "demo-queue" "DEMO_QUEUE" ≠ FileData.user "// my existing worker"
    ∧ existingFlowGenerateFiles [("src/event-store.ts", FileData.user "// mine")]
        "demo-queue" "DEMO_QUEUE"
      = ([("src/event-store.ts", FileData.user "// mine"),
          ("src/dashboard.html", FileData.dashboard),
          ("src/queue-handler.ts", FileData.queueHandler "demo-queue" "DEMO_QUEUE")],
         ["event-store.ts already exists, skipping"]) := by
  refine ⟨by decide, by decide, by decide, by decide⟩

/-- C5. Every fallible collaborator outcome (read error, parse error, write
error on either path) is caught and surfaced as a `false` return — the
patcher has return type `Bool`, so no exception crosses its boundary — and
a `false` patch result makes both flow orchestrators terminate with exit
code 1. -/
theorem patchWrangler_error_handling :
    (∀ (configPath : String) (env : PatchEnv) (cfg : QueueConfig) (e : String),
      env.readErr = some e →
      patchWranglerConfigForQueues configPath env cfg = false)
    ∧ (∀ (configPath : String) (env : PatchEnv) (cfg : QueueConfig) (e : String),
      env.readErr = none → strEndsWith configPath ".toml" = false →
      env.jsonParse = .error e →
      patchWranglerConfigForQueues configPath env cfg = false)
    ∧ (∀ (configPath : String) (env : PatchEnv) (cfg : QueueConfig) (e : String),
      env.readErr = none → strEndsWith configPath ".toml" = true →
      docContains env.tomlContent (qLine cfg.queueName.toList) = false →
      env.writeErr = some e →
      patchWranglerConfigForQueues configPath env cfg = false)
    ∧ (∀ (configPath : String) (env : PatchEnv) (cfg : QueueConfig)
        (doc : WranglerDoc) (e : String),
      env.readErr = none → strEndsWith configPath ".toml" = false →
      env.jsonParse = .ok doc → jsonQueueExists doc cfg = false →
      env.writeErr = some e →
      patchWranglerConfigForQueues configPath env cfg = false)
    ∧ (∀ (env : NewFlowEnv) (pname cfile : String),
      env.projectName = some pname → env.dirExists = false → env.scaffoldOk = true →
      env.foundConfig = some cfile → env.hasPatchConfig = true → env.patchResult = false →
      (runGenericNewFlow env).1 = .exit 1)
    ∧ (∀ (env : ExistingFlowEnv) (cpath : String),
      env.configPath = some cpath → env.hasPatchConfig = true → env.patchResult = false →
      (runGenericExistingFlow env).1 = .exit 1) := by
  refine ⟨?_, ?_, ?_, ?_, ?_, ?_⟩
  · intro configPath env cfg e h
    simp [patchWranglerConfigForQueues, h]
  · intro configPath env cfg e h1 h2 h3
    simp [patchWranglerConfigForQueues, h1, h2, h3]
  · intro configPath env cfg e h1 h2 h3 h4
    simp [patchWranglerConfigForQueues, h1, h2, h3, h4]
    exact h3
  · intro configPath env cfg doc e h1 h2 h3 h4 h5
    simp [patchWranglerConfigForQueues, h1, h2, h3, h4, h5]
  · intro env pname cfile h1 h2 h3 h4 h5 h6
    simp [runGenericNewFlow, h1, h2, h3, h4, h5, h6]
  · intro env cpath h1 h2 h3
    simp [runGenericExistingFlow, h1, h2, h3]

/-- Witness for `patchWrangler_error_handling` at concrete error outcomes. -/
theorem patchWrangler_error_handling_witness :
    patchWranglerConfigForQueues "wrangler.jsonc"
      { readErr := some "ENOENT", jsonParse := .error "unreachable",
        tomlContent := [], writeErr := none }
      { queueName := "demo-queue", bindingName := "DEMO_QUEUE" } = false
    ∧ patchWranglerConfigForQueues "wrangler.jsonc"
      { readErr := none, jsonParse := .error "bad json",
        tomlContent := [], writeErr := none }
      { queueName := "demo-queue", bindingName := "DEMO_QUEUE" } = false
    ∧ patchWranglerConfigForQueues "wrangler.toml"
      { readErr := none, jsonParse := .error "unreachable",
        tomlContent := [], writeErr := some "EACCES" }
      { queueName := "demo-queue", bindingName := "DEMO_QUEUE" } = false
    ∧ patchWranglerConfigForQueues "wrangler.jsonc"
      { readErr := none,
        jsonParse := Except.ok (WranglerDoc.mk [] [] [] [] [] []),
        tomlContent := [], writeErr := some "EACCES" }
      { queueName := "demo-queue", bindingName := "DEMO_QUEUE" } = false
    ∧ (runGenericNewFlow
      { primId := "queues", primName := "Queues", hasPatchConfig := true,
        hasPreDeploy := true, deployInfo := none,
        projectName := some "my-queue-worker", queueName := "demo-queue",
        dirExists := false, scaffoldOk := true,
        foundConfig := some "wrangler.jsonc", patchResult := false,
        deployResp := none,
        deployEnv := { queueCreateOk := true, deployOk := true, authErr := false } }).1
      = .exit 1
    ∧ (runGenericExistingFlow
      { primId := "queues", primName := "Queues", hasPatchConfig := true,
        hasPreDeploy := true, deployInfo := none,
        configPath := some "wrangler.toml", patchResult := false,
        queueName := "demo-queue", createResourceResp := none }).1
      = .exit 1 :=
  ⟨patchWrangler_error_handling.1 _ _ _ "ENOENT" rfl,
   patchWrangler_error_handling.2.1 _ _ _ "bad json" rfl (by decide) rfl,
   patchWrangler_error_handling.2.2.1 _ _ _ "EACCES" rfl (by decide) (by decide) rfl,
   patchWrangler_error_handling.2.2.2.1 _ _ _ _ "EACCES" rfl (by decide) rfl (by decide) rfl,
   patchWrangler_error_handling.2.2.2.2.1 _ "my-queue-worker" "wrangler.jsonc"
     rfl rfl rfl rfl rfl rfl,
   patchWrangler_error_handling.2.2.2.2.2 _ "wrangler.toml" rfl rfl rfl⟩

/-- C6, evaluation at the failing input. In the generic new-project flow,
when the user opts into deployment and `npx wrangler deploy` fails, the flow
does return normally (exit code 0) and `deployProject` prints the
deploy-later fallback — but because `deployProject` swallows the failure,
the flow then prints the primitive's success message ("🎉 Your queue worker
is live!") unconditionally, not only on success. -/
theorem genericNewFlow_success_message_after_failed_deploy :
    (runGenericNewFlow
      { primId := "queues", primName := "Queues", hasPatchConfig := true,
        hasPreDeploy := true,
        deployInfo := some
          { successMessage := some "🎉 Your queue worker is live!",
            nextSteps := some
              ["Open http://localhost:8787 in your browser to view the live dashboard"] },
        projectName := some "my-queue-worker", queueName := "demo-queue",
        dirExists := false, scaffoldOk := true,
        foundConfig := some "wrangler.jsonc", patchResult := true,
        deployResp := some true,
        deployEnv := { queueCreateOk := true, deployOk := false, authErr := false } }).1
      = .completed
    ∧ Ev.deployFailed ∈ (runGenericNewFlow
      { primId := "queues", primName := "Queues", hasPatchConfig := true,
        hasPreDeploy := true,
        deployInfo := some
          { successMessage := some "🎉 Your queue worker is live!",
            nextSteps := some
              ["Open http://localhost:8787 in your browser to view the live dashboard"] },
        projectName := some "my-queue-worker", queueName := "demo-queue",
        dirExists := false, scaffoldOk := true,
        foundConfig := some "wrangler.jsonc", patchResult := true,
        deployResp := some true,
        deployEnv := { queueCreateOk := true, deployOk := false, authErr := false } }).2
    ∧ Ev.deployLaterHint "my-queue-worker" ∈ (runGenericNewFlow
      { primId := "queues", primName := "Queues", hasPatchConfig := true,
        hasPreDeploy := true,
        deployInfo := some
          { successMessage := some "🎉 Your queue worker is live!",
            nextSteps := some
              ["Open http://localhost:8787 in your browser to view the live dashboard"] },
        projectName := some "my-queue-worker", queueName := "demo-queue",
        dirExists := false, scaffoldOk := true,
        foundConfig := some "wrangler.jsonc", patchResult := true,
        deployResp := some true,
        deployEnv := { queueCreateOk := true, deployOk := false, authErr := false } }).2
    ∧ Ev.successMessage "🎉 Your queue worker is live!" ∈ (runGenericNewFlow
      { primId := "queues", primName := "Queues", hasPatchConfig := true,
        hasPreDeploy := true,
        deployInfo := some
          { successMessage := some "🎉 Your queue worker is live!",
            nextSteps := some
              ["Open http://localhost:8787 in your browser to view the live dashboard"] },
        projectName := some "my-queue-worker", queueName := "demo-queue",
        dirExists := false, scaffoldOk := true,
        foundConfig := some "wrangler.jsonc", patchResult := true,
        deployResp := some true,
        deployEnv := { queueCreateOk := true, deployOk := false, authErr := false } }).2 := by
  refine ⟨by decide, by decide, by decide, by decide⟩

/-- C8. Passing both `--new` and `--add` terminates with exit code 1 before
any other action (even before context detection: the trace is empty); and
`--add` with no detected existing project terminates with exit code 1 after
nothing but the read-only detection, so no filesystem mutation is
attempted. -/
theorem init_flag_errors
    (opts : InitOptions) (ctx : ProjectContext) (reg : Registry)
    (selResp : Option String) (pn pe : Option Unit) :
    (opts.add = true → opts.new = true →
      init opts ctx reg selResp pn pe = (.exit 1, []))
    ∧ (opts.add = true → opts.new = false → ctx.isWorkerProject = false →
      init opts ctx reg selResp pn pe = (.exit 1, [InitAct.detect])
      ∧ ∀ a ∈ (init opts ctx reg selResp pn pe).2, a.mutates = false) := by
  constructor
  · intro ha hn
    simp [init, ha, hn]
  · intro ha hn hw
    cases hreg : PrimitiveRegistry.get reg "queues" <;>
      simp [init, ha, hn, hw, hreg, InitAct.mutates]

/-- Witness for `init_flag_errors` at concrete inputs. -/
theorem init_flag_errors_witness :
    init { add := true, new := true } { isWorkerProject := false, wranglerConfigPath := none }
        [] none none none = (.exit 1, [])
    ∧ init { add := true, new := false } { isWorkerProject := false, wranglerConfigPath := none }
        [] none none none = (.exit 1, [InitAct.detect]) :=
  ⟨(init_flag_errors { add := true, new := true }
      { isWorkerProject := false, wranglerConfigPath := none } [] none none none).1 rfl rfl,
   ((init_flag_errors { add := true, new := false }
      { isWorkerProject := false, wranglerConfigPath := none } [] none none none).2
      rfl rfl rfl).1⟩

/-- C10. A cancelled "Deploy to Cloudflare now?" prompt (the prompting
collaborator returning the cancellation sentinel, so `response.deploy` is
undefined) behaves exactly like answering no: `promptDeploy` returns
`false`, and the new-project flow prints the local-dev instructions, never
starts a deploy, and completes normally (exit code 0 at the CLI entry). -/
theorem promptDeploy_cancel_is_no
    (env : NewFlowEnv) (pname cfile : String)
    (h1 : env.projectName = some pname)
    (h2 : env.dirExists = false)
    (h3 : env.scaffoldOk = true)
    (h4 : env.foundConfig = some cfile)
    (h5 : env.patchResult = true)
    (h6 : env.deployResp = none) :
    promptDeploy env.deployResp = false
    ∧ (runGenericNewFlow env).1 = .completed
    ∧ Ev.localDevInstructions pname ∈ (runGenericNewFlow env).2
    ∧ Ev.deployStep ∉ (runGenericNewFlow env).2 := by
  refine ⟨by simp [promptDeploy, h6], ?_, ?_, ?_⟩ <;>
    (rcases hdi : env.deployInfo with _ | ⟨sm, ns⟩ <;>
      (try rcases ns with _ | st) <;>
        by_cases hpc : env.hasPatchConfig <;>
          by_cases hqid : env.primId = "queues" <;>
            simp [runGenericNewFlow, promptDeploy, h1, h2, h3, h4, h5, h6, hdi, hpc, hqid])

/-- Witness for `promptDeploy_cancel_is_no` at a concrete environment. -/
theorem promptDeploy_cancel_is_no_witness :
    promptDeploy (NewFlowEnv.deployResp
      { primId := "queues", primName := "Queues", hasPatchConfig := true,
        hasPreDeploy := true, deployInfo := none,
        projectName := some "my-queue-worker", queueName := "demo-queue",
        dirExists := false, scaffoldOk := true,
        foundConfig := some "wrangler.jsonc", patchResult := true,
        deployResp := none,
        deployEnv := { queueCreateOk := true, deployOk := true, authErr := false } }) = false
    ∧ (runGenericNewFlow
      { primId := "queues", primName := "Queues", hasPatchConfig := true,
        hasPreDeploy := true, deployInfo := none,
        projectName := some "my-queue-worker", queueName := "demo-queue",
        dirExists := false, scaffoldOk := true,
        foundConfig := some "wrangler.jsonc", patchResult := true,
        deployResp := none,
        deployEnv := { queueCreateOk := true, deployOk := true, authErr := false } }).1
      = .completed
    ∧ Ev.localDevInstructions "my-queue-worker" ∈ (runGenericNewFlow
      { primId := "queues", primName := "Queues", hasPatchConfig := true,
        hasPreDeploy := true, deployInfo := none,
        projectName := some "my-queue-worker", queueName := "demo-queue",
        dirExists := false, scaffoldOk := true,
        foundConfig := some "wrangler.jsonc", patchResult := true,
        deployResp := none,
        deployEnv := { queueCreateOk := true, deployOk := true, authErr := false } }).2
    ∧ Ev.deployStep ∉ (runGenericNewFlow
      { primId := "queues", primName := "Queues", hasPatchConfig := true,
        hasPreDeploy := true, deployInfo := none,
        projectName := some "my-queue-worker", queueName := "demo-queue",
        dirExists := false, scaffoldOk := true,
        foundConfig := some "wrangler.jsonc", patchResult := true,
        deployResp := none,
        deployEnv := { queueCreateOk := true, deployOk := true, authErr := false } }).2 :=
  promptDeploy_cancel_is_no _ "my-queue-worker" "wrangler.jsonc" rfl rfl rfl rfl rfl rfl

end Clementine
